import Mathlib

/-!
Shallow embedding of three dspace-angular source slices:

* `src/app/core/tasks/tasks.service.ts` (task request pipeline),
* `src/app/core/submission/vocabularies/vocabulary.service.ts`
  (vocabulary entry pipeline),
* the reloadable-action orchestrator base class
  (`MyDSpaceReloadableActionsComponent`).

RxJS observables are modelled as the list of values they emit, in order;
an operator pipeline becomes a function on such lists.  A pipeline that
"never emits" is the empty list (or `none` for single-emission pipelines).
Gateway (request/cache service) behaviour is an explicit parameter: the
list of `RemoteData` values its response stream emits.
-/

/-- The lifecycle state carried by a `RemoteData` envelope. -/
inductive RDState
  | requestPending
  | responsePending
  | success
  | failure
deriving DecidableEq, Repr

/-- The `RemoteData` envelope wrapping a value in flight: state, HTTP status
code, error message and (on success) the payload. -/
structure RemoteData (α : Type) where
  state : RDState
  statusCode : Option Nat
  errorMessage : Option String
  payload : Option α
deriving DecidableEq, Repr

/-- `RemoteData.hasSucceeded` from the remote-data model. -/
def RemoteData.hasSucceeded {α : Type} (rd : RemoteData α) : Bool :=
  rd.state == RDState.success

/-- `RemoteData.hasFailed` from the remote-data model. -/
def RemoteData.hasFailed {α : Type} (rd : RemoteData α) : Bool :=
  rd.state == RDState.failure

/-- `RemoteData.hasCompleted`: the request has resolved, to success or
failure. -/
def RemoteData.hasCompleted {α : Type} (rd : RemoteData α) : Bool :=
  rd.hasSucceeded || rd.hasFailed

/-- `ProcessTaskResponse` (models/process-task-response): the reduced
two-state outcome of a task submission. -/
structure ProcessTaskResponse where
  hasSucceeded : Bool
  statusCode : Option Nat := none
  errorMessage : Option String := none
deriving DecidableEq, Repr

/-- Modelled from the spec: `isNotEmpty` of `shared/empty.util` (not under
`src/`), applied to a string: non-null and non-empty ("suspend until
resolved and non-empty"). -/
def isNotEmptyStr (s : String) : Bool :=
  s != ""

/-- Modelled from the spec: `isNotEmpty` of `shared/empty.util` applied to
an optional string (`undefined` and the empty string are both empty). -/
def isNotEmptyOpt : Option String → Bool
  | none => false
  | some s => isNotEmptyStr s

/-- Modelled from the spec: `hasValue` of `shared/empty.util` (not under
`src/`), as used by `searchTask`; the spec describes the accepted
candidate as "the first non-empty candidate". -/
def hasValueStr (s : String) : Bool :=
  s != ""

/-- Modelled from the spec: `getFirstCompletedRemoteData` of
`core/shared/operators` (not under `src/`): "await the gateway's resolved
response" — the first emission whose state is success or failure. -/
def getFirstCompletedRemoteData {α : Type} (source : List (RemoteData α)) :
    Option (RemoteData α) :=
  source.find? (fun rd => rd.hasCompleted)

/-- Modelled from the spec: `getFirstSucceededRemoteData` of
`core/shared/operators` (not under `src/`): the first emission whose state
is success; while none arrives the pipeline does not emit. -/
def getFirstSucceededRemoteData {α : Type} (source : List (RemoteData α)) :
    Option (RemoteData α) :=
  source.find? (fun rd => rd.hasSucceeded)

/-- Modelled from the spec: `getFirstSucceededRemoteDataPayload` of
`core/shared/operators` (not under `src/`): "unwrap to its first
successful payload". -/
def getFirstSucceededRemoteDataPayload {α : Type}
    (source : List (RemoteData α)) : Option α :=
  (getFirstSucceededRemoteData source).bind (fun rd => rd.payload)

/-- `distinctUntilChanged` on a value stream (default comparison is value
equality for primitive values such as href strings): drop an emission
equal to the previous one.  Helper carrying the previous emission. -/
def dedupFrom {α : Type} [DecidableEq α] (prev : α) : List α → List α
  | [] => []
  | y :: ys => if y = prev then dedupFrom prev ys else y :: dedupFrom y ys

/-- `distinctUntilChanged` on a value stream, from the first emission. -/
def distinctUntilChangedL {α : Type} [DecidableEq α] : List α → List α
  | [] => []
  | x :: xs => x :: dedupFrom x xs

/- ------------------------------------------------------------------ -/
/- Task request pipeline: `src/app/core/tasks/tasks.service.ts`.       -/
/- ------------------------------------------------------------------ -/

/-- `TasksService.getEndpointByIDHref`: append `/resourceID` when the
resource identifier is non-empty, otherwise return the endpoint
unchanged.  A missing (`undefined`) identifier is modelled as `none`. -/
def getEndpointByIDHref (endpoint : String) (resourceID : Option String) :
    String :=
  if isNotEmptyOpt resourceID then
    endpoint ++ "/" ++ resourceID.getD ""
  else
    endpoint

/-- `TasksService.fetchRequest`: take the first completed `RemoteData`
for the request identifier and reduce it: failure yields
`ProcessTaskResponse(false, statusCode, errorMessage)`, otherwise
`ProcessTaskResponse(true, statusCode)`. -/
def fetchRequest {α : Type} (responses : List (RemoteData α)) :
    Option ProcessTaskResponse :=
  (getFirstCompletedRemoteData responses).map (fun response =>
    if response.hasFailed then
      { hasSucceeded := false
        statusCode := response.statusCode
        errorMessage := response.errorMessage }
    else
      { hasSucceeded := true, statusCode := response.statusCode })

/-- The href targets of the requests built by `postToEndpoint`, in order:
filter non-empty endpoint emissions, append the scope suffix, drop
consecutive duplicates. -/
def postRequestUrls (hrefs : List String) (scopeId : Option String) :
    List String :=
  distinctUntilChangedL
    ((hrefs.filter (fun href => isNotEmptyStr href)).map
      (fun endpointURL => getEndpointByIDHref endpointURL scopeId))

/-- A `TaskPostRequest` descriptor: generated request identifier, target
href and body. -/
structure TaskPostRequest (β : Type) where
  uuid : String
  href : String
  body : β
deriving DecidableEq, Repr

/-- The `TaskPostRequest` descriptors configured by `postToEndpoint`. -/
def postRequests {β : Type} (requestId : String) (hrefs : List String)
    (scopeId : Option String) (body : β) : List (TaskPostRequest β) :=
  (postRequestUrls hrefs scopeId).map
    (fun url => { uuid := requestId, href := url, body := body })

/-- `TasksService.postToEndpoint` reduced to its emissions: each
configured request is followed by `fetchRequest` on the gateway's
response stream for the generated request identifier.  The trailing
`distinctUntilChanged` compares freshly constructed response objects by
reference and therefore passes every emission; it is the identity here. -/
def postToEndpoint {α : Type} (hrefs : List String) (scopeId : Option String)
    (responses : List (RemoteData α)) : List ProcessTaskResponse :=
  (postRequestUrls hrefs scopeId).flatMap
    (fun _ => (fetchRequest responses).toList)

/-- `TasksService.getEndpointById`: filter non-empty endpoint emissions,
drop consecutive duplicates, then append the scope suffix. -/
def getEndpointById (hrefs : List String) (scopeId : Option String) :
    List String :=
  (distinctUntilChangedL (hrefs.filter (fun href => isNotEmptyStr href))).map
    (fun endpointURL => getEndpointByIDHref endpointURL scopeId)

/-- `TasksService.deleteById` reduced to its emissions: a DELETE request
per resolved endpoint href, each followed by `fetchRequest` on the
gateway's response stream (trailing object-identity
`distinctUntilChanged` is the identity, as in `postToEndpoint`). -/
def deleteById {α : Type} (hrefs : List String) (scopeId : String)
    (responses : List (RemoteData α)) : List ProcessTaskResponse :=
  (getEndpointById hrefs (some scopeId)).flatMap
    (fun _ => (fetchRequest responses).toList)

/-- `TasksService.searchTask`: wait for the first href candidate accepted
by `hasValue`, then fetch by that href; while no candidate is accepted
the pipeline does not emit (empty emission list). -/
def searchTask {τ : Type} (hrefCandidates : List String)
    (fetchByHref : String → List (RemoteData τ)) : List (RemoteData τ) :=
  match hrefCandidates.find? (fun href => hasValueStr href) with
  | none => []
  | some href => fetchByHref href

/- ------------------------------------------------------------------ -/
/- Vocabulary entry pipeline:                                          -/
/- `src/app/core/submission/vocabularies/vocabulary.service.ts`.       -/
/- ------------------------------------------------------------------ -/

/-- Modelled from the spec: `PageInfo` (not under `src/`): pagination
parameters; a default `PageInfo` carries no explicit page or size. -/
structure PageInfo where
  elementsPerPage : Option Nat := none
  currentPage : Option Nat := none
  totalElements : Option Nat := none
deriving DecidableEq, Repr

/-- The default `PageInfo` produced by `new PageInfo()`. -/
def defaultPageInfo : PageInfo := {}

/-- `VocabularyOptions`: identifies the vocabulary the entries belong to. -/
structure VocabularyOptions where
  name : String
deriving DecidableEq, Repr

/-- Modelled from the spec: `VocabularyFindOptions` (not under `src/`):
the find options built per lookup, positional arguments as in the
service's constructor calls. -/
structure VocabularyFindOptions where
  query : Option String
  filter : Option String
  exact : Option Bool
  entryID : Option String
  elementsPerPage : Option Nat
  currentPage : Option Nat
deriving DecidableEq, Repr

/-- A `Vocabulary` resource, keeping the `_links.entries.href` the
pipeline extracts. -/
structure Vocabulary where
  id : String
  name : String
  entriesHref : String
deriving DecidableEq, Repr

/-- A `VocabularyEntry` value object. -/
structure VocabularyEntry where
  display : String
  value : String
  authority : Option String := none
deriving DecidableEq, Repr

/-- A `PaginatedList`: page info plus the page of items. -/
structure PaginatedList (α : Type) where
  pageInfo : PageInfo
  page : List α
deriving DecidableEq, Repr

/-- Modelled from the spec: `getFirstSucceededRemoteListPayload` of
`core/shared/operators` (not under `src/`): "takes the first successful
list's" page of items. -/
def getFirstSucceededRemoteListPayload {α : Type}
    (source : List (RemoteData (PaginatedList α))) : Option (List α) :=
  (getFirstSucceededRemoteDataPayload source).map (fun list => list.page)

/-- Render one optional query parameter. -/
def optQueryParam (key : String) (v : Option String) : List String :=
  match v with
  | none => []
  | some s => [key ++ "=" ++ s]

/-- Render a boolean as its query-string text. -/
def boolText : Bool → String
  | true => "true"
  | false => "false"

/-- Modelled from the spec: `DataService.buildHrefFromFindOptions` (not
under `src/`): deterministically encode the find options (filter value,
exact flag, entry id, page, size) as query parameters on the entries
href. -/
def buildHrefFromFindOptions (href : String) (o : VocabularyFindOptions) :
    String :=
  match optQueryParam "filter" o.filter ++
      optQueryParam "exact" (o.exact.map boolText) ++
      optQueryParam "entryID" o.entryID ++
      optQueryParam "page" (o.currentPage.map toString) ++
      optQueryParam "size" (o.elementsPerPage.map toString) with
  | [] => href
  | p :: ps => href ++ "?" ++ (ps.foldl (fun acc q => acc ++ "&" ++ q) p)

/-- The request hrefs issued by the shared entries pipeline
(`findVocabularyById` → first succeeded payload → build href from find
options → keep non-empty → drop consecutive duplicates); each surviving
href becomes one configured `VocabularyEntriesRequest`. -/
def vocabularyEntriesHrefs (options : VocabularyFindOptions)
    (vocabRDs : List (RemoteData Vocabulary)) : List String :=
  distinctUntilChangedL
    ((((getFirstSucceededRemoteDataPayload vocabRDs).map
        (fun vocabulary => buildHrefFromFindOptions vocabulary.entriesHref
          options)).toList).filter
      (fun href => isNotEmptyStr href))

/-- The `VocabularyFindOptions` built by `getVocabularyEntriesByValue`. -/
def entriesByValueOptions (value : String) (exact : Bool) (p : PageInfo) :
    VocabularyFindOptions :=
  { query := none
    filter := some value
    exact := some exact
    entryID := none
    elementsPerPage := p.elementsPerPage
    currentPage := p.currentPage }

/-- The `VocabularyFindOptions` built by `getVocabularyEntryByID`. -/
def entryByIDOptions (ID : String) (p : PageInfo) : VocabularyFindOptions :=
  { query := none
    filter := none
    exact := none
    entryID := some ID
    elementsPerPage := p.elementsPerPage
    currentPage := p.currentPage }

/-- The request hrefs issued by one `getVocabularyEntriesByValue` call:
`vocabFetch` is the `findVocabularyById` response stream for a
vocabulary name. -/
def getVocabularyEntriesByValueHrefs (value : String) (exact : Bool)
    (vocabularyOptions : VocabularyOptions) (pageInfo : PageInfo)
    (vocabFetch : String → List (RemoteData Vocabulary)) : List String :=
  vocabularyEntriesHrefs (entriesByValueOptions value exact pageInfo)
    (vocabFetch vocabularyOptions.name)

/-- `VocabularyService.getVocabularyEntriesByValue` reduced to its
emissions: each issued request href is answered by the gateway's
response stream for that href (`getVocabularyEntriesFor`). -/
def getVocabularyEntriesByValue (value : String) (exact : Bool)
    (vocabularyOptions : VocabularyOptions) (pageInfo : PageInfo)
    (vocabFetch : String → List (RemoteData Vocabulary))
    (gateway : String → List (RemoteData (PaginatedList VocabularyEntry))) :
    List (RemoteData (PaginatedList VocabularyEntry)) :=
  (getVocabularyEntriesByValueHrefs value exact vocabularyOptions pageInfo
      vocabFetch).flatMap gateway

/-- `VocabularyService.getVocabularyEntryByValue`: query with
`exact = true` and a default `PageInfo`, take the first succeeded list
payload and reduce it to its first element, or null when empty.  `none`
means the pipeline never emits; `some none` is an emitted null. -/
def getVocabularyEntryByValue (value : String)
    (vocabularyOptions : VocabularyOptions)
    (vocabFetch : String → List (RemoteData Vocabulary))
    (gateway : String → List (RemoteData (PaginatedList VocabularyEntry))) :
    Option (Option VocabularyEntry) :=
  (getFirstSucceededRemoteListPayload
      (getVocabularyEntriesByValue value true vocabularyOptions
        defaultPageInfo vocabFetch gateway)).map
    (fun list => list.head?)

/-- `VocabularyService.getVocabularyEntryByID`: same pipeline with an
`entryID` filter and a default `PageInfo`, reduced to the first element
of the first succeeded list, or null when empty. -/
def getVocabularyEntryByID (ID : String)
    (vocabularyOptions : VocabularyOptions)
    (vocabFetch : String → List (RemoteData Vocabulary))
    (gateway : String → List (RemoteData (PaginatedList VocabularyEntry))) :
    Option (Option VocabularyEntry) :=
  (getFirstSucceededRemoteListPayload
      ((vocabularyEntriesHrefs (entryByIDOptions ID defaultPageInfo)
          (vocabFetch vocabularyOptions.name)).flatMap gateway)).map
    (fun list => list.head?)

/- ------------------------------------------------------------------ -/
/- Reloadable action orchestrator:                                     -/
/- `MyDSpaceReloadableActionsComponent` (src/unnamed/part_000).        -/
/- ------------------------------------------------------------------ -/

/-- A domain object handled by a reloadable action. -/
structure DSpaceObject where
  uuid : String
deriving DecidableEq, Repr

/-- Modelled from the spec: the UI-facing search-result wrapper produced
by `getSearchResultFor` (not under `src/`): it decorates the reloaded
object, keeping it as `indexableObject`. -/
structure SearchResult where
  indexableObject : DSpaceObject
deriving DecidableEq, Repr

/-- `convertReloadedObject`: decorate the reloaded object with its
search-result wrapper. -/
def convertReloadedObject (dso : DSpaceObject) : SearchResult :=
  { indexableObject := dso }

/-- The observable side effects of one orchestrator invocation, in
order. -/
inductive Effect
  | processing (active : Bool)
  | notifySuccess
  | notifyError
  | processCompleted (result : Bool) (reloadedObject : SearchResult)
  | reload
deriving DecidableEq, Repr

/-- `handleReloadableActionResponse`: on success, emit the
`processCompleted` event when a reloaded object is present, otherwise
trigger the generic `reload`, then show the success notification; on
failure show the error notification. -/
def handleReloadableActionResponse (result : Bool)
    (reloadedObject : Option SearchResult) : List Effect :=
  if result then
    (match reloadedObject with
      | some obj => [Effect.processCompleted result obj]
      | none => [Effect.reload]) ++ [Effect.notifySuccess]
  else
    [Effect.notifyError]

/-- What a concrete subclass's `reloadObjectExecution` returns: either a
`RemoteData` stream or a direct domain object. -/
inductive ReloadExec
  | remote (rds : List (RemoteData DSpaceObject))
  | direct (dso : DSpaceObject)
deriving DecidableEq, Repr

/-- `_reloadObject` reduced to its emissions: inside the `switchMap`,
each emission `res` of `reloadObjectExecution` is unwrapped separately —
a `RemoteData` value is piped as the singleton stream `of(res)` through
`getFirstSucceededRemoteDataPayload` (one payload emission when it
succeeded, none otherwise), a direct object passes through — so a stream
with several succeeded values emits once per succeeded value; every
emission is then converted to its search-result wrapper. -/
def reloadObjectEmissions : ReloadExec → List SearchResult
  | ReloadExec.remote rds =>
      (rds.flatMap (fun res =>
        (getFirstSucceededRemoteDataPayload [res]).toList)).map
        convertReloadedObject
  | ReloadExec.direct dso => [convertReloadedObject dso]

/-- The effects of one run of the reload `tap` in `startActionExecution`:
mark processing off, then handle the succeeded response with the emitted
object. -/
def reloadTapEffects (obj : SearchResult) : List Effect :=
  Effect.processing false :: handleReloadableActionResponse true (some obj)

/-- The effects produced for one action response inside the orchestrator's
`switchMap`: on success the reload's `tap` runs once per reload emission
(not at all when the reload never emits); on failure processing is marked
off and the response handled immediately. -/
def actionResponseEffects (re : ReloadExec) (res : ProcessTaskResponse) :
    List Effect :=
  if res.hasSucceeded then
    (reloadObjectEmissions re).flatMap reloadTapEffects
  else
    Effect.processing false :: handleReloadableActionResponse false none

/-- `startActionExecution` reduced to its side effects: mark processing,
run the action, and handle each action response through the `switchMap`
body.  In this synchronous list model the outer `switchMap` coincides
with `flatMap` (all inner emissions occur before the next outer one
arrives). -/
def startActionExecution (resps : List ProcessTaskResponse)
    (re : ReloadExec) : List Effect :=
  Effect.processing true :: resps.flatMap (actionResponseEffects re)

/-- Whether an effect is a user notification. -/
def isNotification : Effect → Bool
  | Effect.notifySuccess => true
  | Effect.notifyError => true
  | _ => false

/-- How many notifications an effect list contains. -/
def notificationCount (effects : List Effect) : Nat :=
  (effects.filter isNotification).length

/-- Whether an effect is a success notification. -/
def isSuccessNotification : Effect → Bool
  | Effect.notifySuccess => true
  | _ => false

/-- Whether an effect is an error notification. -/
def isErrorNotification : Effect → Bool
  | Effect.notifyError => true
  | _ => false

/-- How many success notifications an effect list contains. -/
def successNotificationCount (effects : List Effect) : Nat :=
  (effects.filter isSuccessNotification).length

/-- How many error notifications an effect list contains. -/
def errorNotificationCount (effects : List Effect) : Nat :=
  (effects.filter isErrorNotification).length

/-- The `ActionResult` events (`processCompleted` emissions) of an effect
list, as (succeeded, reloaded object) pairs. -/
def actionResultEvents (effects : List Effect) : List (Bool × SearchResult) :=
  effects.filterMap (fun e =>
    match e with
    | Effect.processCompleted b o => some (b, o)
    | _ => none)

/- ------------------------------------------------------------------ -/
/- Helper lemmas.                                                      -/
/- ------------------------------------------------------------------ -/

theorem isNotEmptyStr_eq_true_iff (s : String) :
    isNotEmptyStr s = true ↔ s ≠ "" := by
  simp [isNotEmptyStr]

theorem find?_append_of_all_false {α : Type} (p : α → Bool)
    (l1 l2 : List α) (h : ∀ x ∈ l1, p x = false) :
    (l1 ++ l2).find? p = l2.find? p := by
  induction l1 with
  | nil => simp
  | cons a l ih =>
      have ha : p a = false := h a (List.mem_cons_self a l)
      simp only [List.cons_append, List.find?]
      rw [ha]
      exact ih (fun x hx => h x (List.mem_cons_of_mem a hx))

theorem filter_all_empty (l : List String) (h : ∀ x ∈ l, x = "") :
    l.filter (fun href => isNotEmptyStr href) = [] := by
  rw [List.filter_eq_nil_iff]
  intro a ha
  rw [h a ha]
  simp [isNotEmptyStr]

theorem vocabularyEntriesHrefs_length_le_one
    (options : VocabularyFindOptions)
    (vocabRDs : List (RemoteData Vocabulary)) :
    (vocabularyEntriesHrefs options vocabRDs).length ≤ 1 := by
  unfold vocabularyEntriesHrefs
  cases hp : getFirstSucceededRemoteDataPayload vocabRDs with
  | none => simp [distinctUntilChangedL]
  | some v =>
      by_cases hx :
          isNotEmptyStr (buildHrefFromFindOptions v.entriesHref options) =
            true
      · simp [hx, distinctUntilChangedL, dedupFrom]
      · simp [List.filter, hx, distinctUntilChangedL]

/-- C2: `fetchRequest` (shared by `postToEndpoint` and `deleteById`)
reduces the gateway's first resolved response: a failure yields a
`ProcessTaskResponse` with `hasSucceeded = false`, the gateway's status
code and its error message verbatim; a non-failed (successful) resolved
response yields `hasSucceeded = true` with the gateway's status code and
no error message. -/
theorem fetchRequest_reduces_gateway_response {α : Type}
    (responses : List (RemoteData α)) (r : RemoteData α)
    (h : getFirstCompletedRemoteData responses = some r) :
    (r.hasFailed = true →
      fetchRequest responses =
        some { hasSucceeded := false, statusCode := r.statusCode,
               errorMessage := r.errorMessage }) ∧
    (r.hasFailed = false →
      fetchRequest responses =
        some { hasSucceeded := true, statusCode := r.statusCode,
               errorMessage := none }) := by
  constructor <;> intro hf <;> simp [fetchRequest, h, hf]

/-- Witness for C2 at a concrete failed gateway response. -/
theorem fetchRequest_reduces_gateway_response_witness :
    getFirstCompletedRemoteData
        [({ state := RDState.failure, statusCode := some 500,
            errorMessage := some "server error", payload := none } :
          RemoteData Unit)] =
      some { state := RDState.failure, statusCode := some 500,
             errorMessage := some "server error", payload := none } ∧
    fetchRequest
        [({ state := RDState.failure, statusCode := some 500,
            errorMessage := some "server error", payload := none } :
          RemoteData Unit)] =
      some { hasSucceeded := false, statusCode := some 500,
             errorMessage := some "server error" } :=
  ⟨rfl,
    (fetchRequest_reduces_gateway_response
      [({ state := RDState.failure, statusCode := some 500,
          errorMessage := some "server error", payload := none } :
        RemoteData Unit)]
      { state := RDState.failure, statusCode := some 500,
        errorMessage := some "server error", payload := none }
      rfl).1 rfl⟩

/-- C7: with a single resolved non-empty endpoint `U` and a non-empty
`scopeId`, `postToEndpoint` issues its POST against exactly
`U ++ "/" ++ scopeId`, and a successful HTTP 200 gateway response
reduces to a `ProcessTaskResponse` with `hasSucceeded = true` and status
code 200. -/
theorem postToEndpoint_scoped_url_and_200 {α : Type} (U scope : String)
    (responses : List (RemoteData α)) (r : RemoteData α)
    (hU : U ≠ "") (hs : scope ≠ "") :
    postRequestUrls [U] (some scope) = [U ++ "/" ++ scope] ∧
    (getFirstCompletedRemoteData responses = some r →
      r.state = RDState.success → r.statusCode = some 200 →
      postToEndpoint [U] (some scope) responses =
        [{ hasSucceeded := true, statusCode := some 200,
           errorMessage := none }]) := by
  have hurl : postRequestUrls [U] (some scope) = [U ++ "/" ++ scope] := by
    simp [postRequestUrls, isNotEmptyStr, isNotEmptyOpt,
      getEndpointByIDHref, distinctUntilChangedL, dedupFrom, hU, hs]
  refine ⟨hurl, fun hfind hstate hcode => ?_⟩
  have hred : fetchRequest responses =
      some { hasSucceeded := true, statusCode := some 200,
             errorMessage := none } := by
    simp [fetchRequest, hfind, RemoteData.hasFailed, hstate, hcode]
  simp [postToEndpoint, hurl, hred]

/-- Witness for C7: the spec scenario `submit("claimtask", {}, "123")`
against an endpoint resolving to `https://api/claimtask`. -/
theorem postToEndpoint_scoped_url_and_200_witness :
    ("https://api/claimtask" : String) ≠ "" ∧ ("123" : String) ≠ "" ∧
    postRequestUrls ["https://api/claimtask"] (some "123") =
      ["https://api/claimtask" ++ "/" ++ "123"] ∧
    postToEndpoint ["https://api/claimtask"] (some "123")
        [({ state := RDState.success, statusCode := some 200,
            errorMessage := none, payload := some () } : RemoteData Unit)] =
      [{ hasSucceeded := true, statusCode := some 200,
         errorMessage := none }] :=
  ⟨by decide, by decide,
    (postToEndpoint_scoped_url_and_200 "https://api/claimtask" "123"
      [({ state := RDState.success, statusCode := some 200,
          errorMessage := none, payload := some () } : RemoteData Unit)]
      { state := RDState.success, statusCode := some 200,
        errorMessage := none, payload := some () }
      (by decide) (by decide)).1,
    (postToEndpoint_scoped_url_and_200 "https://api/claimtask" "123"
      [({ state := RDState.success, statusCode := some 200,
          errorMessage := none, payload := some () } : RemoteData Unit)]
      { state := RDState.success, statusCode := some 200,
        errorMessage := none, payload := some () }
      (by decide) (by decide)).2 rfl rfl rfl⟩

/-- C10: `getEndpointByIDHref` returns the endpoint unchanged, with no
trailing slash, for a missing or empty resource identifier; hence
`deleteById` with an empty `scopeId` resolves the bare endpoint URL and
proceeds to issue its DELETE there (reducing the gateway response as
usual) rather than raising an error. -/
theorem getEndpointByIDHref_empty_resource_id {α : Type} (E U : String)
    (responses : List (RemoteData α)) (hU : U ≠ "") :
    getEndpointByIDHref E none = E ∧
    getEndpointByIDHref E (some "") = E ∧
    getEndpointById [U] (some "") = [U] ∧
    deleteById [U] "" responses = (fetchRequest responses).toList := by
  have h1 : getEndpointByIDHref E none = E := by
    simp [getEndpointByIDHref, isNotEmptyOpt]
  have h2 : getEndpointByIDHref E (some "") = E := by
    simp [getEndpointByIDHref, isNotEmptyOpt, isNotEmptyStr]
  have h3 : getEndpointById [U] (some "") = [U] := by
    simp [getEndpointById, isNotEmptyStr, distinctUntilChangedL,
      dedupFrom, hU, getEndpointByIDHref, isNotEmptyOpt]
  refine ⟨h1, h2, h3, ?_⟩
  simp [deleteById, h3]

/-- Witness for C10 at a concrete endpoint and a 204 gateway response. -/
theorem getEndpointByIDHref_empty_resource_id_witness :
    ("https://api/claimtask" : String) ≠ "" ∧
    getEndpointByIDHref "https://api/claimtask" none =
      "https://api/claimtask" ∧
    getEndpointById ["https://api/claimtask"] (some "") =
      ["https://api/claimtask"] ∧
    deleteById ["https://api/claimtask"] ""
        [({ state := RDState.success, statusCode := some 204,
            errorMessage := none, payload := some () } : RemoteData Unit)] =
      [{ hasSucceeded := true, statusCode := some 204,
         errorMessage := none }] :=
  ⟨by decide,
    (getEndpointByIDHref_empty_resource_id "https://api/claimtask"
      "https://api/claimtask"
      [({ state := RDState.success, statusCode := some 204,
          errorMessage := none, payload := some () } : RemoteData Unit)]
      (by decide)).1,
    (getEndpointByIDHref_empty_resource_id "https://api/claimtask"
      "https://api/claimtask"
      [({ state := RDState.success, statusCode := some 204,
          errorMessage := none, payload := some () } : RemoteData Unit)]
      (by decide)).2.2.1,
    by
      rw [(getEndpointByIDHref_empty_resource_id "https://api/claimtask"
        "https://api/claimtask"
        [({ state := RDState.success, statusCode := some 204,
            errorMessage := none, payload := some () } : RemoteData Unit)]
        (by decide)).2.2.2]
      rfl⟩

/-- C4: while the resolved endpoint value is the empty string, both
`postToEndpoint` and `deleteById` (via `getEndpointById`) never emit an
outcome; once a non-empty endpoint value arrives (and the gateway
resolves the request), they do emit. -/
theorem taskPipeline_stalls_until_nonempty_endpoint {α : Type}
    (hrefs pre rest : List String) (good scope : String)
    (scopeId : Option String) (responses : List (RemoteData α))
    (pr : ProcessTaskResponse)
    (hall : ∀ h ∈ hrefs, h = "")
    (hpre : ∀ h ∈ pre, h = "") (hgood : good ≠ "")
    (hresp : fetchRequest responses = some pr) :
    postToEndpoint hrefs scopeId responses = [] ∧
    deleteById hrefs scope responses = [] ∧
    postToEndpoint (pre ++ good :: rest) scopeId responses ≠ [] ∧
    deleteById (pre ++ good :: rest) scope responses ≠ [] := by
  have hnil : hrefs.filter (fun href => isNotEmptyStr href) = [] :=
    filter_all_empty hrefs hall
  have happ : (pre ++ good :: rest).filter (fun href => isNotEmptyStr href) =
      good :: rest.filter (fun href => isNotEmptyStr href) := by
    rw [List.filter_append, filter_all_empty pre hpre]
    simp [isNotEmptyStr, hgood]
  refine ⟨?_, ?_, ?_, ?_⟩
  · simp [postToEndpoint, postRequestUrls, hnil, distinctUntilChangedL]
  · simp [deleteById, getEndpointById, hnil, distinctUntilChangedL]
  · simp [postToEndpoint, postRequestUrls, happ, distinctUntilChangedL,
      hresp]
  · simp [deleteById, getEndpointById, happ, distinctUntilChangedL, hresp]

/-- Witness for C4 at concrete endpoint streams and a concrete resolved
gateway response. -/
theorem taskPipeline_stalls_until_nonempty_endpoint_witness :
    (∀ h ∈ (["", ""] : List String), h = "") ∧
    (∀ h ∈ ([""] : List String), h = "") ∧
    ("https://api/claimtask" : String) ≠ "" ∧
    fetchRequest
        [({ state := RDState.success, statusCode := some 200,
            errorMessage := none, payload := some () } : RemoteData Unit)] =
      some { hasSucceeded := true, statusCode := some 200,
             errorMessage := none } ∧
    postToEndpoint ["", ""] (some "123")
        [({ state := RDState.success, statusCode := some 200,
            errorMessage := none, payload := some () } : RemoteData Unit)] =
      [] ∧
    postToEndpoint ([""] ++ "https://api/claimtask" :: []) (some "123")
        [({ state := RDState.success, statusCode := some 200,
            errorMessage := none, payload := some () } : RemoteData Unit)] ≠
      [] :=
  ⟨by decide, by decide, by decide, rfl,
    (taskPipeline_stalls_until_nonempty_endpoint ["", ""] [""] []
      "https://api/claimtask" "tid" (some "123")
      [({ state := RDState.success, statusCode := some 200,
          errorMessage := none, payload := some () } : RemoteData Unit)]
      { hasSucceeded := true, statusCode := some 200, errorMessage := none }
      (by decide) (by decide) (by decide) rfl).1,
    (taskPipeline_stalls_until_nonempty_endpoint ["", ""] [""] []
      "https://api/claimtask" "tid" (some "123")
      [({ state := RDState.success, statusCode := some 200,
          errorMessage := none, payload := some () } : RemoteData Unit)]
      { hasSucceeded := true, statusCode := some 200, errorMessage := none }
      (by decide) (by decide) (by decide) rfl).2.2.1⟩

/-- C9: `searchTask` waits for the first href candidate accepted by
`hasValue` (as the spec puts it, the first non-empty candidate; earlier
rejected candidates trigger nothing) and then fetches by that href,
emitting exactly the gateway's response stream for it. -/
theorem searchTask_fetches_first_accepted_candidate {τ : Type}
    (pre rest : List String) (good : String)
    (fetchByHref : String → List (RemoteData τ))
    (hpre : ∀ h ∈ pre, hasValueStr h = false)
    (hgood : hasValueStr good = true) :
    searchTask (pre ++ good :: rest) fetchByHref = fetchByHref good := by
  unfold searchTask
  rw [find?_append_of_all_false _ pre _ hpre]
  simp [List.find?, hgood]

/-- Witness for C9 at a concrete candidate stream and gateway. -/
theorem searchTask_fetches_first_accepted_candidate_witness :
    (∀ h ∈ ([""] : List String), hasValueStr h = false) ∧
    hasValueStr "https://api/search/byid" = true ∧
    searchTask ([""] ++ "https://api/search/byid" :: [])
        (fun _ => [({ state := RDState.success, statusCode := some 200,
                      errorMessage := none, payload := some () } :
                    RemoteData Unit)]) =
      [({ state := RDState.success, statusCode := some 200,
          errorMessage := none, payload := some () } : RemoteData Unit)] :=
  ⟨by decide, by decide,
    searchTask_fetches_first_accepted_candidate [""] []
      "https://api/search/byid"
      (fun _ => [({ state := RDState.success, statusCode := some 200,
                    errorMessage := none, payload := some () } :
                  RemoteData Unit)])
      (by decide) (by decide)⟩

/-- C5: two `getVocabularyEntriesByValue` calls with unchanged arguments
issue at most one distinct request: the href built from the arguments is
deterministic and each call issues at most one request, so the combined
request stream of both calls carries at most one distinct href. -/
theorem getVocabularyEntriesByValue_idempotent_requests
    (value : String) (exact : Bool) (vocabularyOptions : VocabularyOptions)
    (pageInfo : PageInfo)
    (vocabFetch : String → List (RemoteData Vocabulary)) :
    ((getVocabularyEntriesByValueHrefs value exact vocabularyOptions
        pageInfo vocabFetch ++
      getVocabularyEntriesByValueHrefs value exact vocabularyOptions
        pageInfo vocabFetch).dedup).length ≤ 1 := by
  have hlen : (getVocabularyEntriesByValueHrefs value exact
      vocabularyOptions pageInfo vocabFetch).length ≤ 1 :=
    vocabularyEntriesHrefs_length_le_one _ _
  rcases hR : getVocabularyEntriesByValueHrefs value exact
      vocabularyOptions pageInfo vocabFetch with _ | ⟨a, tl⟩
  · simp
  · rcases tl with _ | ⟨b, tl2⟩
    · simp [List.dedup_cons_of_mem]
    · rw [hR] at hlen
      simp at hlen

/-- C8: the single-entry lookups `getVocabularyEntryByValue` (which
queries with `exact = true` and a default `PageInfo`) and
`getVocabularyEntryByID` emit the first element of the first
successfully fetched entry list when that list is non-empty, and null
when the result set is empty. -/
theorem vocabularyEntryLookups_first_or_null (value ID : String)
    (vocabularyOptions : VocabularyOptions)
    (vocabFetch : String → List (RemoteData Vocabulary))
    (gateway : String → List (RemoteData (PaginatedList VocabularyEntry)))
    (e : VocabularyEntry) (rest : List VocabularyEntry) :
    (getFirstSucceededRemoteListPayload
        (getVocabularyEntriesByValue value true vocabularyOptions
          defaultPageInfo vocabFetch gateway) = some (e :: rest) →
      getVocabularyEntryByValue value vocabularyOptions vocabFetch
        gateway = some (some e)) ∧
    (getFirstSucceededRemoteListPayload
        (getVocabularyEntriesByValue value true vocabularyOptions
          defaultPageInfo vocabFetch gateway) = some [] →
      getVocabularyEntryByValue value vocabularyOptions vocabFetch
        gateway = some none) ∧
    (getFirstSucceededRemoteListPayload
        ((vocabularyEntriesHrefs (entryByIDOptions ID defaultPageInfo)
            (vocabFetch vocabularyOptions.name)).flatMap gateway) =
        some (e :: rest) →
      getVocabularyEntryByID ID vocabularyOptions vocabFetch gateway =
        some (some e)) ∧
    (getFirstSucceededRemoteListPayload
        ((vocabularyEntriesHrefs (entryByIDOptions ID defaultPageInfo)
            (vocabFetch vocabularyOptions.name)).flatMap gateway) =
        some [] →
      getVocabularyEntryByID ID vocabularyOptions vocabFetch gateway =
        some none) := by
  refine ⟨fun h => ?_, fun h => ?_, fun h => ?_, fun h => ?_⟩ <;>
    simp [getVocabularyEntryByValue, getVocabularyEntryByID, h]

/-- Witness for C8: the spec scenario — `getVocabularyEntryByID` against
a vocabulary whose entries list contains one entry returns that entry. -/
theorem vocabularyEntryLookups_first_or_null_witness :
    getFirstSucceededRemoteListPayload
        ((vocabularyEntriesHrefs (entryByIDOptions "42" defaultPageInfo)
            ((fun _ => [(⟨RDState.success, some 200, none,
                some ⟨"srsc", "srsc", "https://api/srsc/entries"⟩⟩ :
              RemoteData Vocabulary)])
              (VocabularyOptions.mk "srsc").name)).flatMap
          (fun _ => [(⟨RDState.success, some 200, none,
              some ⟨{}, [⟨"Research Subject", "42", some "srsc:42"⟩]⟩⟩ :
            RemoteData (PaginatedList VocabularyEntry))])) =
      some (⟨"Research Subject", "42", some "srsc:42"⟩ :: []) ∧
    getVocabularyEntryByID "42" ⟨"srsc"⟩
        (fun _ => [(⟨RDState.success, some 200, none,
            some ⟨"srsc", "srsc", "https://api/srsc/entries"⟩⟩ :
          RemoteData Vocabulary)])
        (fun _ => [(⟨RDState.success, some 200, none,
            some ⟨{}, [⟨"Research Subject", "42", some "srsc:42"⟩]⟩⟩ :
          RemoteData (PaginatedList VocabularyEntry))]) =
      some (some ⟨"Research Subject", "42", some "srsc:42"⟩) :=
  ⟨by decide,
    (vocabularyEntryLookups_first_or_null "42" "42" ⟨"srsc"⟩
      (fun _ => [(⟨RDState.success, some 200, none,
          some ⟨"srsc", "srsc", "https://api/srsc/entries"⟩⟩ :
        RemoteData Vocabulary)])
      (fun _ => [(⟨RDState.success, some 200, none,
          some ⟨{}, [⟨"Research Subject", "42", some "srsc:42"⟩]⟩⟩ :
        RemoteData (PaginatedList VocabularyEntry))])
      ⟨"Research Subject", "42", some "srsc:42"⟩ []).2.2.1 (by decide)⟩

theorem all_mem_singleton_not_succeeded {α : Type} (rd0 : RemoteData α)
    (h0 : rd0.hasSucceeded = false) :
    ∀ s : String, ∀ rd ∈ [rd0], rd.hasSucceeded = false := by
  intro _s rd hrd
  rw [List.mem_singleton] at hrd
  rw [hrd]
  exact h0

/-- C3 counterexample: against a vocabulary that resolves successfully
and an entries gateway whose response stream carries only a Failure
`RemoteData` (HTTP 500), `getVocabularyEntryByValue` never emits
(result `none`): the pipeline filters for the first succeeded response,
so the gateway failure is silently dropped rather than surfaced to the
caller, contradicting the claim. -/
theorem getVocabularyEntryByValue_drops_failure_counterexample :
    getVocabularyEntryByValue "term" ⟨"srsc"⟩
        (fun _ => [(⟨RDState.success, some 200, none,
            some ⟨"srsc", "srsc", "https://api/srsc/entries"⟩⟩ :
          RemoteData Vocabulary)])
        (fun _ => [(⟨RDState.failure, some 500, some "server error",
            none⟩ : RemoteData (PaginatedList VocabularyEntry))]) =
      none := by decide

/-- C3 amended: task submissions reduce a gateway failure (uncaught and
unretried) into a `ProcessTaskResponse` with `hasSucceeded = false`,
the gateway's status code and its error message verbatim; the
single-entry vocabulary lookups, however, filter for the first
succeeded response, so when the entries gateway never succeeds they
never emit — the failure is dropped, not surfaced as a Failure state. -/
theorem gatewayFailure_reduced_for_tasks_dropped_by_entry_lookups
    {α : Type} (responses : List (RemoteData α)) (r : RemoteData α)
    (value ID : String) (vocabularyOptions : VocabularyOptions)
    (vocabFetch : String → List (RemoteData Vocabulary))
    (gateway : String → List (RemoteData (PaginatedList VocabularyEntry)))
    (hfail : ∀ h, ∀ rd ∈ gateway h, rd.hasSucceeded = false) :
    (getFirstCompletedRemoteData responses = some r →
      r.hasFailed = true →
      fetchRequest responses =
        some { hasSucceeded := false, statusCode := r.statusCode,
               errorMessage := r.errorMessage }) ∧
    getVocabularyEntryByValue value vocabularyOptions vocabFetch
      gateway = none ∧
    getVocabularyEntryByID ID vocabularyOptions vocabFetch gateway =
      none := by
  have hstream : ∀ hrefs : List String,
      getFirstSucceededRemoteData (hrefs.flatMap gateway) = none := by
    intro hrefs
    unfold getFirstSucceededRemoteData
    rw [List.find?_eq_none]
    intro rd hrd
    rcases List.mem_flatMap.mp hrd with ⟨h, _, hmem⟩
    simp [hfail h rd hmem]
  refine ⟨fun hfind hf => ?_, ?_, ?_⟩
  · simp [fetchRequest, hfind, hf]
  · simp [getVocabularyEntryByValue, getFirstSucceededRemoteListPayload,
      getFirstSucceededRemoteDataPayload, getVocabularyEntriesByValue,
      hstream]
  · simp [getVocabularyEntryByID, getFirstSucceededRemoteListPayload,
      getFirstSucceededRemoteDataPayload, hstream]

/-- Witness for the C3 amended theorem at a concrete failing gateway. -/
theorem gatewayFailure_reduced_for_tasks_dropped_by_entry_lookups_witness :
    (∀ h : String, ∀ rd ∈
        [(⟨RDState.failure, some 500, some "server error", none⟩ :
          RemoteData (PaginatedList VocabularyEntry))],
      rd.hasSucceeded = false) ∧
    getFirstCompletedRemoteData
        [(⟨RDState.failure, some 500, some "server error", none⟩ :
          RemoteData Unit)] =
      some ⟨RDState.failure, some 500, some "server error", none⟩ ∧
    fetchRequest
        [(⟨RDState.failure, some 500, some "server error", none⟩ :
          RemoteData Unit)] =
      some { hasSucceeded := false, statusCode := some 500,
             errorMessage := some "server error" } ∧
    getVocabularyEntryByID "42" ⟨"srsc"⟩
        (fun _ => [(⟨RDState.success, some 200, none,
            some ⟨"srsc", "srsc", "https://api/srsc/entries"⟩⟩ :
          RemoteData Vocabulary)])
        (fun _ => [(⟨RDState.failure, some 500, some "server error",
            none⟩ : RemoteData (PaginatedList VocabularyEntry))]) =
      none :=
  ⟨all_mem_singleton_not_succeeded _ (by decide),
    by decide,
    (gatewayFailure_reduced_for_tasks_dropped_by_entry_lookups
      [(⟨RDState.failure, some 500, some "server error", none⟩ :
        RemoteData Unit)]
      ⟨RDState.failure, some 500, some "server error", none⟩
      "term" "42" ⟨"srsc"⟩
      (fun _ => [(⟨RDState.success, some 200, none,
          some ⟨"srsc", "srsc", "https://api/srsc/entries"⟩⟩ :
        RemoteData Vocabulary)])
      (fun _ => [(⟨RDState.failure, some 500, some "server error",
          none⟩ : RemoteData (PaginatedList VocabularyEntry))])
      (all_mem_singleton_not_succeeded _ (by decide))).1 rfl rfl,
    (gatewayFailure_reduced_for_tasks_dropped_by_entry_lookups
      [(⟨RDState.failure, some 500, some "server error", none⟩ :
        RemoteData Unit)]
      ⟨RDState.failure, some 500, some "server error", none⟩
      "term" "42" ⟨"srsc"⟩
      (fun _ => [(⟨RDState.success, some 200, none,
          some ⟨"srsc", "srsc", "https://api/srsc/entries"⟩⟩ :
        RemoteData Vocabulary)])
      (fun _ => [(⟨RDState.failure, some 500, some "server error",
          none⟩ : RemoteData (PaginatedList VocabularyEntry))])
      (all_mem_singleton_not_succeeded _ (by decide))).2.2⟩

theorem notificationCount_append (l1 l2 : List Effect) :
    notificationCount (l1 ++ l2) =
      notificationCount l1 + notificationCount l2 := by
  simp [notificationCount, List.filter_append]

theorem successNotificationCount_append (l1 l2 : List Effect) :
    successNotificationCount (l1 ++ l2) =
      successNotificationCount l1 + successNotificationCount l2 := by
  simp [successNotificationCount, List.filter_append]

theorem errorNotificationCount_append (l1 l2 : List Effect) :
    errorNotificationCount (l1 ++ l2) =
      errorNotificationCount l1 + errorNotificationCount l2 := by
  simp [errorNotificationCount, List.filter_append]

theorem reloadTaps_notification_counts (objs : List SearchResult) :
    notificationCount (objs.flatMap reloadTapEffects) = objs.length ∧
    successNotificationCount (objs.flatMap reloadTapEffects) =
      objs.length ∧
    errorNotificationCount (objs.flatMap reloadTapEffects) = 0 := by
  induction objs with
  | nil =>
      simp [notificationCount, successNotificationCount,
        errorNotificationCount]
  | cons a l ih =>
      rw [List.flatMap_cons]
      rw [notificationCount_append, successNotificationCount_append,
        errorNotificationCount_append, ih.1, ih.2.1, ih.2.2]
      simp [reloadTapEffects, handleReloadableActionResponse,
        notificationCount, successNotificationCount,
        errorNotificationCount, isNotification, isSuccessNotification,
        isErrorNotification, Nat.add_comm]

theorem actionResponseEffects_notification_counts
    (re : ReloadExec) (res : ProcessTaskResponse) :
    notificationCount (actionResponseEffects re res) =
      (if res.hasSucceeded then (reloadObjectEmissions re).length
        else 1) ∧
    successNotificationCount (actionResponseEffects re res) =
      (if res.hasSucceeded then (reloadObjectEmissions re).length
        else 0) ∧
    errorNotificationCount (actionResponseEffects re res) =
      (if res.hasSucceeded then 0 else 1) := by
  cases hres : res.hasSucceeded
  · simp [actionResponseEffects, hres, handleReloadableActionResponse,
      notificationCount, successNotificationCount,
      errorNotificationCount, isNotification, isSuccessNotification,
      isErrorNotification]
  · simpa [actionResponseEffects, hres] using
      reloadTaps_notification_counts (reloadObjectEmissions re)

theorem actionResultEvents_append (l1 l2 : List Effect) :
    actionResultEvents (l1 ++ l2) =
      actionResultEvents l1 ++ actionResultEvents l2 := by
  simp [actionResultEvents, List.filterMap_append]

theorem actionResultEvents_reloadTaps (objs : List SearchResult) :
    actionResultEvents (objs.flatMap reloadTapEffects) =
      objs.map (fun obj => (true, obj)) := by
  induction objs with
  | nil => simp [actionResultEvents]
  | cons a l ih =>
      rw [List.flatMap_cons, actionResultEvents_append, ih]
      simp [actionResultEvents, reloadTapEffects,
        handleReloadableActionResponse]

theorem reload_not_mem_reloadTaps (objs : List SearchResult) :
    Effect.reload ∉ objs.flatMap reloadTapEffects := by
  intro hmem
  rcases List.mem_flatMap.mp hmem with ⟨obj, _, hin⟩
  simp [reloadTapEffects, handleReloadableActionResponse] at hin

/-- C1 counterexample: when the action outcome succeeded but the reload
`RemoteData` stream never succeeds, `_reloadObject` never emits, the
`tap` never runs, and the invocation emits zero notifications — not
exactly one as the claim states. -/
theorem startActionExecution_zero_notifications_counterexample :
    notificationCount
        (startActionExecution
          [{ hasSucceeded := true, statusCode := some 200 }]
          (ReloadExec.remote
            [⟨RDState.failure, some 500, some "reload failed", none⟩])) ≠
      1 := by decide

/-- C1 amended: a `startActionExecution` invocation emits one
failure-typed notification per failed action response and one
success-typed notification per object the reload pipeline emits for each
succeeded action response — zero when the reload never succeeds, several
when the reload stream yields several succeeded values; an invocation
with a single action response never emits both kinds, and emits exactly
one notification only when the action failed or the reload emitted
exactly one object. -/
theorem startActionExecution_notification_characterization
    (resps : List ProcessTaskResponse) (res : ProcessTaskResponse)
    (re : ReloadExec) :
    notificationCount (startActionExecution resps re) =
      (resps.map (fun r =>
        if r.hasSucceeded then (reloadObjectEmissions re).length
        else 1)).sum ∧
    errorNotificationCount (startActionExecution [res] re) =
      (if res.hasSucceeded then 0 else 1) ∧
    successNotificationCount (startActionExecution [res] re) =
      (if res.hasSucceeded then (reloadObjectEmissions re).length
        else 0) ∧
    (errorNotificationCount (startActionExecution [res] re) = 0 ∨
      successNotificationCount (startActionExecution [res] re) = 0) := by
  have hhead : ∀ l : List Effect,
      notificationCount (Effect.processing true :: l) =
        notificationCount l := by
    intro l
    simp [notificationCount, isNotification]
  have hmain : ∀ rs : List ProcessTaskResponse,
      notificationCount (startActionExecution rs re) =
        (rs.map (fun r =>
          if r.hasSucceeded then (reloadObjectEmissions re).length
          else 1)).sum := by
    intro rs
    rw [startActionExecution, hhead]
    induction rs with
    | nil => simp [notificationCount]
    | cons r l ih =>
        rw [List.flatMap_cons, notificationCount_append, ih,
          (actionResponseEffects_notification_counts re r).1]
        simp
  have hsingle : startActionExecution [res] re =
      Effect.processing true :: actionResponseEffects re res := by
    simp [startActionExecution]
  have herr : errorNotificationCount (startActionExecution [res] re) =
      (if res.hasSucceeded then 0 else 1) := by
    rw [hsingle]
    have : errorNotificationCount
        (Effect.processing true :: actionResponseEffects re res) =
        errorNotificationCount (actionResponseEffects re res) := by
      simp [errorNotificationCount, isErrorNotification]
    rw [this, (actionResponseEffects_notification_counts re res).2.2]
  have hsuc : successNotificationCount (startActionExecution [res] re) =
      (if res.hasSucceeded then (reloadObjectEmissions re).length
        else 0) := by
    rw [hsingle]
    have : successNotificationCount
        (Effect.processing true :: actionResponseEffects re res) =
        successNotificationCount (actionResponseEffects re res) := by
      simp [successNotificationCount, isSuccessNotification]
    rw [this, (actionResponseEffects_notification_counts re res).2.1]
  refine ⟨hmain resps, herr, hsuc, ?_⟩
  cases hres : res.hasSucceeded
  · right
    rw [hsuc, hres]
    simp
  · left
    rw [herr, hres]
    simp

/-- C6 counterexample: a reload `RemoteData` stream carrying two
succeeded values makes the reload `tap` run twice within one succeeded
invocation, emitting two `ActionResult` events — not exactly one as the
claim states. -/
theorem startActionExecution_two_action_results_counterexample :
    (actionResultEvents
        (startActionExecution
          [{ hasSucceeded := true, statusCode := some 200 }]
          (ReloadExec.remote
            [⟨RDState.success, some 200, none, some ⟨"a"⟩⟩,
             ⟨RDState.success, some 200, none, some ⟨"b"⟩⟩]))).length ≠
      1 := by decide

/-- C6 amended: `handleReloadableActionResponse` on a succeeded outcome
with no reloaded object triggers the generic reload fallback and emits
no `ActionResult` event; with a reloaded object it emits exactly one
`ActionResult` event carrying `succeeded = true` and that object and no
generic reload; across a succeeded single-response invocation,
`startActionExecution` emits one `ActionResult{true, obj}` event per
object the reload pipeline emits and never the generic reload — exactly
one event only when the reload emits exactly one object. -/
theorem handleReloadableActionResponse_success_branch
    (o : SearchResult) (res : ProcessTaskResponse) (re : ReloadExec) :
    (Effect.reload ∈ handleReloadableActionResponse true none ∧
      actionResultEvents (handleReloadableActionResponse true none) =
        []) ∧
    (actionResultEvents (handleReloadableActionResponse true (some o)) =
        [(true, o)] ∧
      Effect.reload ∉ handleReloadableActionResponse true (some o)) ∧
    (res.hasSucceeded = true →
      actionResultEvents (startActionExecution [res] re) =
        (reloadObjectEmissions re).map (fun obj => (true, obj)) ∧
      Effect.reload ∉ startActionExecution [res] re) := by
  refine ⟨⟨?_, ?_⟩, ⟨?_, ?_⟩, fun hres => ⟨?_, ?_⟩⟩
  · simp [handleReloadableActionResponse]
  · simp [handleReloadableActionResponse, actionResultEvents]
  · simp [handleReloadableActionResponse, actionResultEvents]
  · simp [handleReloadableActionResponse]
  · have hsingle : startActionExecution [res] re =
        Effect.processing true ::
          (reloadObjectEmissions re).flatMap reloadTapEffects := by
      simp [startActionExecution, actionResponseEffects, hres]
    rw [hsingle]
    have : actionResultEvents
        (Effect.processing true ::
          (reloadObjectEmissions re).flatMap reloadTapEffects) =
        actionResultEvents
          ((reloadObjectEmissions re).flatMap reloadTapEffects) := by
      simp [actionResultEvents]
    rw [this, actionResultEvents_reloadTaps]
  · have hsingle : startActionExecution [res] re =
        Effect.processing true ::
          (reloadObjectEmissions re).flatMap reloadTapEffects := by
      simp [startActionExecution, actionResponseEffects, hres]
    rw [hsingle]
    intro hmem
    rcases List.mem_cons.mp hmem with hhd | htl
    · exact absurd hhd (by simp)
    · exact reload_not_mem_reloadTaps _ htl

/-- Witness for C6 at a concrete succeeded outcome and a direct reload. -/
theorem handleReloadableActionResponse_success_branch_witness :
    ({ hasSucceeded := true, statusCode := some 200 } :
        ProcessTaskResponse).hasSucceeded = true ∧
    actionResultEvents
        (startActionExecution
          [{ hasSucceeded := true, statusCode := some 200 }]
          (ReloadExec.direct ⟨"42"⟩)) =
      (reloadObjectEmissions (ReloadExec.direct ⟨"42"⟩)).map
        (fun obj => (true, obj)) ∧
    Effect.reload ∉
      startActionExecution
        [{ hasSucceeded := true, statusCode := some 200 }]
        (ReloadExec.direct ⟨"42"⟩) :=
  ⟨rfl,
    ((handleReloadableActionResponse_success_branch
      (convertReloadedObject ⟨"42"⟩)
      { hasSucceeded := true, statusCode := some 200 }
      (ReloadExec.direct ⟨"42"⟩)).2.2 rfl).1,
    ((handleReloadableActionResponse_success_branch
      (convertReloadedObject ⟨"42"⟩)
      { hasSucceeded := true, statusCode := some 200 }
      (ReloadExec.direct ⟨"42"⟩)).2.2 rfl).2⟩
